import Mathlib

/-!
Shallow embedding of `src/exe/feature.cc` (COLMAP feature/matching job
dispatcher).  Each `Run*` entry point is translated into a Lean function from
an environment (external collaborators: camera-model registry, CSV parser,
text-file reader, build flag `kUseOpenGL`, opaque worker outcomes) and the
parsed options to a `RunResult`: the process exit code together with an
ordered trace of the observable dispatcher actions (list-file read, validation
checks, GPU-context creation, worker construction, worker execution path).
-/

namespace Colmap

/-- Exit code `EXIT_SUCCESS` returned by the entry points. -/
def EXIT_SUCCESS : Nat := 0

/-- Exit code `EXIT_FAILURE` returned by the entry points. -/
def EXIT_FAILURE : Nat := 1

/-- Terminal states of a Worker (`Thread`): after `Start()`/`Wait()` the
worker has either completed or failed.  The dispatcher treats the outcome as
opaque. -/
inductive WorkerState where
  | completed
  | failed
deriving DecidableEq

/-- The closed family of Worker subclasses constructed by the entry points of
`feature.cc`.  `featurePairsMatcher` carries the `verify_matches` flag set in
`RunMatchesImporter`. -/
inductive WorkerVariant where
  | siftExtractor
  | featureImporter
  | exhaustiveMatcher
  | imagePairsMatcher
  | featurePairsMatcher (verify_matches : Bool)
  | sequentialMatcher
  | spatialMatcher
  | transitiveMatcher
  | vocabTreeMatcher
deriving DecidableEq

/-- Observable actions of one dispatcher invocation, in program order. -/
inductive Event where
  /-- `ReadTextFileLines(image_list_path)` (input-set resolution). -/
  | readListFile
  /-- the dispatcher-level `ExistsCameraModelWithName` check (records its
  result; in `RunFeatureExtractor` this check prints an error but does not
  return). -/
  | checkModelExists (ok : Bool)
  /-- the `VerifyCameraParams` call (records its result). -/
  | checkCameraParams (ok : Bool)
  /-- construction of the `QApplication` GPU context object. -/
  | createContext
  /-- construction of the Worker object of the given variant. -/
  | constructWorker (v : WorkerVariant)
  /-- `RunThreadWithOpenGLContext(&worker)`: execution on the dedicated
  context-owning thread, ending in the given terminal state. -/
  | execOnContextThread (v : WorkerVariant) (final : WorkerState)
  /-- `worker.Start(); worker.Wait()` on the invoking thread, ending in the
  given terminal state. -/
  | execDirect (v : WorkerVariant) (final : WorkerState)
deriving DecidableEq

/-- A camera-model registry entry: name, numeric id, and the model's
registered parameter-validation predicate (`CameraModelVerifyParams`
dispatches to it). -/
structure CameraModelSpec where
  name : String
  model_id : Int
  verifyParams : List ℚ → Bool

/-- The external camera-model registry (`base/camera_models.h`), kept
abstract: a finite list of model specs. -/
structure Registry where
  models : List CameraModelSpec

/-- `ExistsCameraModelWithName(name)`: some registry entry has this name. -/
def existsCameraModelWithName (reg : Registry) (name : String) : Bool :=
  reg.models.any fun m => m.name == name

/-- `kInvalidCameraModelId`. -/
def kInvalidCameraModelId : Int := -1

/-- `CameraModelNameToId(name)`: the id of the registry entry with this name,
or the invalid id when absent. -/
def cameraModelNameToId (reg : Registry) (name : String) : Int :=
  match reg.models.find? (fun m => m.name == name) with
  | some m => m.model_id
  | none => kInvalidCameraModelId

/-- `CameraModelVerifyParams(model_id, params)`: the registered validation
predicate of the model with this id, false for an unknown id. -/
def cameraModelVerifyParams (reg : Registry) (model_id : Int)
    (params : List ℚ) : Bool :=
  match reg.models.find? (fun m => m.model_id == model_id) with
  | some m => m.verifyParams params
  | none => false

/-- `VerifyCameraParams(camera_model, params)` from `feature.cc` lines 48-64:
fails if the model name is unknown; otherwise parses the CSV parameter string
(`CSVToVector<double>`, an external utility passed in as `parse`) and fails
iff the parsed list is non-empty and the model's validation predicate rejects
it.  An empty parsed list always passes. -/
def verifyCameraParams (reg : Registry) (parse : String → List ℚ)
    (camera_model : String) (params : String) : Bool :=
  if !(existsCameraModelWithName reg camera_model) then
    false
  else
    let camera_params := parse params
    let camera_model_id := cameraModelNameToId reg camera_model
    if camera_params.length > 0 &&
        !(cameraModelVerifyParams reg camera_model_id camera_params) then
      false
    else
      true

/-- The external collaborators of one invocation: the camera-model registry,
the CSV parameter parser, the text-file reader, the image set an (external)
directory scan of `image_path` would produce, the compile-time `kUseOpenGL`
flag, and the opaque internal outcome of each worker variant. -/
structure Env where
  registry : Registry
  csvToVector : String → List ℚ
  readTextFileLines : String → List String
  directoryListing : List String
  kUseOpenGL : Bool
  workerFails : WorkerVariant → Bool

/-- The terminal state the given worker variant reaches when executed. -/
def Env.finalState (env : Env) (v : WorkerVariant) : WorkerState :=
  if env.workerFails v then WorkerState.failed else WorkerState.completed

/-- Result of one entry-point invocation: the process exit code and the
ordered trace of observable dispatcher actions. -/
structure RunResult where
  exitCode : Nat
  trace : List Event
deriving DecidableEq

/-- Shared execution tail (`feature.cc` e.g. lines 106-111): run the worker
on the dedicated OpenGL-context thread iff `gpu` holds, else directly via
`Start()`/`Wait()`; then `return EXIT_SUCCESS`. -/
def execWorker (env : Env) (gpu : Bool) (v : WorkerVariant)
    (t : List Event) : RunResult :=
  if gpu then
    { exitCode := EXIT_SUCCESS
      trace := t ++ [Event.execOnContextThread v (env.finalState v)] }
  else
    { exitCode := EXIT_SUCCESS
      trace := t ++ [Event.execDirect v (env.finalState v)] }

/-- Options of `RunFeatureExtractor`: the `image_list_path` default option,
the `ImageReaderOptions` fields the dispatcher reads (camera model name,
camera parameter CSV string, pre-set image list), and
`SiftExtractionOptions::use_gpu`. -/
structure FeatureExtractorOptions where
  image_list_path : String
  camera_model : String
  camera_params : String
  reader_image_list : List String
  sift_extraction_use_gpu : Bool

/-- `RunFeatureExtractor` lines 89-113: the continuation after input-set
resolution.  Line 89 checks `ExistsCameraModelWithName` and prints an error
on failure but does not return; `VerifyCameraParams` failure returns
`EXIT_FAILURE`; otherwise the `QApplication` is created iff
`use_gpu && kUseOpenGL`, the `SiftFeatureExtractor` worker is constructed and
executed, and `EXIT_SUCCESS` is returned. -/
def featureExtractorAfterResolve (env : Env) (opts : FeatureExtractorOptions)
    (t : List Event) : RunResult :=
  let modelOk := existsCameraModelWithName env.registry opts.camera_model
  let t := t ++ [Event.checkModelExists modelOk]
  let paramsOk := verifyCameraParams env.registry env.csvToVector
      opts.camera_model opts.camera_params
  let t := t ++ [Event.checkCameraParams paramsOk]
  if !paramsOk then
    { exitCode := EXIT_FAILURE, trace := t }
  else
    let gpu := opts.sift_extraction_use_gpu && env.kUseOpenGL
    let t := if gpu then t ++ [Event.createContext] else t
    let t := t ++ [Event.constructWorker WorkerVariant.siftExtractor]
    execWorker env gpu WorkerVariant.siftExtractor t

/-- `RunFeatureExtractor` lines 68-114.  If `image_list_path` is non-empty
the list file is read first (lines 82-87) and an empty result returns
`EXIT_SUCCESS` immediately; then validation, construction and execution
follow. -/
def runFeatureExtractor (env : Env) (opts : FeatureExtractorOptions) :
    RunResult :=
  if opts.image_list_path == "" then
    featureExtractorAfterResolve env opts []
  else
    let lines := env.readTextFileLines opts.image_list_path
    if lines.isEmpty then
      { exitCode := EXIT_SUCCESS, trace := [Event.readListFile] }
    else
      featureExtractorAfterResolve env opts [Event.readListFile]

/-- Options of `RunFeatureImporter`: `import_path` is opaque to the
dispatch logic; the extraction options are parsed (`AddExtractionOptions`)
but their `use_gpu` flag is never consulted. -/
structure FeatureImporterOptions where
  image_list_path : String
  camera_model : String
  camera_params : String
  reader_image_list : List String
  sift_extraction_use_gpu : Bool

/-- `RunFeatureImporter` lines 139-148: the continuation after input-set
resolution.  `VerifyCameraParams` failure returns `EXIT_FAILURE`; otherwise
the `FeatureImporter` worker is constructed and run directly via
`Start()`/`Wait()` — no `QApplication` is ever created here. -/
def featureImporterAfterResolve (env : Env) (opts : FeatureImporterOptions)
    (t : List Event) : RunResult :=
  let paramsOk := verifyCameraParams env.registry env.csvToVector
      opts.camera_model opts.camera_params
  let t := t ++ [Event.checkCameraParams paramsOk]
  if !paramsOk then
    { exitCode := EXIT_FAILURE, trace := t }
  else
    let t := t ++ [Event.constructWorker WorkerVariant.featureImporter]
    execWorker env false WorkerVariant.featureImporter t

/-- `RunFeatureImporter` lines 116-149, same input-set resolution as the
extractor (lines 132-137). -/
def runFeatureImporter (env : Env) (opts : FeatureImporterOptions) :
    RunResult :=
  if opts.image_list_path == "" then
    featureImporterAfterResolve env opts []
  else
    let lines := env.readTextFileLines opts.image_list_path
    if lines.isEmpty then
      { exitCode := EXIT_SUCCESS, trace := [Event.readListFile] }
    else
      featureImporterAfterResolve env opts [Event.readListFile]

/-- Options shared by the five plain matcher entry points: only
`SiftMatchingOptions::use_gpu` is consulted by the dispatch logic. -/
structure MatcherOptions where
  sift_matching_use_gpu : Bool

/-- The common body of `RunExhaustiveMatcher`, `RunSequentialMatcher`,
`RunSpatialMatcher`, `RunTransitiveMatcher` and `RunVocabTreeMatcher`
(textually identical in `feature.cc` up to the worker class): create the
`QApplication` iff `use_gpu && kUseOpenGL`, construct the matcher worker,
execute it on the context thread or directly, return `EXIT_SUCCESS`. -/
def runGenericMatcher (env : Env) (opts : MatcherOptions)
    (v : WorkerVariant) : RunResult :=
  let gpu := opts.sift_matching_use_gpu && env.kUseOpenGL
  let t := if gpu then [Event.createContext] else []
  let t := t ++ [Event.constructWorker v]
  execWorker env gpu v t

/-- `RunExhaustiveMatcher` lines 151-174. -/
def runExhaustiveMatcher (env : Env) (opts : MatcherOptions) : RunResult :=
  runGenericMatcher env opts WorkerVariant.exhaustiveMatcher

/-- `RunSequentialMatcher` lines 220-243. -/
def runSequentialMatcher (env : Env) (opts : MatcherOptions) : RunResult :=
  runGenericMatcher env opts WorkerVariant.sequentialMatcher

/-- `RunSpatialMatcher` lines 245-268. -/
def runSpatialMatcher (env : Env) (opts : MatcherOptions) : RunResult :=
  runGenericMatcher env opts WorkerVariant.spatialMatcher

/-- `RunTransitiveMatcher` lines 270-293. -/
def runTransitiveMatcher (env : Env) (opts : MatcherOptions) : RunResult :=
  runGenericMatcher env opts WorkerVariant.transitiveMatcher

/-- `RunVocabTreeMatcher` lines 295-318. -/
def runVocabTreeMatcher (env : Env) (opts : MatcherOptions) : RunResult :=
  runGenericMatcher env opts WorkerVariant.vocabTreeMatcher

/-- Options of `RunMatchesImporter`: `match_list_path` is opaque to the
dispatch logic; `match_type` is `none` when the option is not supplied on the
command line (the C++ variable is initialized to `"pairs"` and
`AddDefaultOption` keeps that value when the option is absent). -/
structure MatchesImporterOptions where
  match_type : Option String
  sift_matching_use_gpu : Bool

/-- `RunMatchesImporter` lines 176-218: the `QApplication` is created iff
`use_gpu && kUseOpenGL` (lines 188-191, before the `match_type` dispatch);
then `match_type` selects `ImagePairsFeatureMatcher` for `"pairs"`, or
`FeaturePairsFeatureMatcher` with `verify_matches := (match_type == "raw")`
for `"raw"`/`"inliers"`, and any other value returns `EXIT_FAILURE` without
constructing a worker. -/
def runMatchesImporter (env : Env) (opts : MatchesImporterOptions) :
    RunResult :=
  let match_type := opts.match_type.getD "pairs"
  let gpu := opts.sift_matching_use_gpu && env.kUseOpenGL
  let t := if gpu then [Event.createContext] else []
  if match_type == "pairs" then
    let t := t ++ [Event.constructWorker WorkerVariant.imagePairsMatcher]
    execWorker env gpu WorkerVariant.imagePairsMatcher t
  else if match_type == "raw" || match_type == "inliers" then
    let v := WorkerVariant.featurePairsMatcher (match_type == "raw")
    let t := t ++ [Event.constructWorker v]
    execWorker env gpu v t
  else
    { exitCode := EXIT_FAILURE, trace := t }

/-! ### Trace observations -/

/-- The event is the list-file read. -/
def isReadListFile : Event → Bool
  | Event.readListFile => true
  | _ => false

/-- The event is a validation check (`ExistsCameraModelWithName` at the
dispatcher level or `VerifyCameraParams`). -/
def isValidationCheck : Event → Bool
  | Event.checkModelExists _ => true
  | Event.checkCameraParams _ => true
  | _ => false

/-- The event is the `VerifyCameraParams` check. -/
def isCheckCameraParams : Event → Bool
  | Event.checkCameraParams _ => true
  | _ => false

/-- The event is the `QApplication` (GPU context) construction. -/
def isCreateContext : Event → Bool
  | Event.createContext => true
  | _ => false

/-- The event is a worker construction. -/
def isConstructWorker : Event → Bool
  | Event.constructWorker _ => true
  | _ => false

/-- The event is an execution on the dedicated context thread. -/
def isExecOnContextThread : Event → Bool
  | Event.execOnContextThread _ _ => true
  | _ => false

/-- The event is a direct `Start()`/`Wait()` execution. -/
def isExecDirect : Event → Bool
  | Event.execDirect _ _ => true
  | _ => false

/-- A worker was constructed during the invocation. -/
def RunResult.workerConstructed (r : RunResult) : Bool :=
  r.trace.any isConstructWorker

/-- A GPU context (`QApplication`) was instantiated during the invocation. -/
def RunResult.contextCreated (r : RunResult) : Bool :=
  r.trace.any isCreateContext

/-- The worker was executed via `RunThreadWithOpenGLContext`. -/
def RunResult.ranOnContextThread (r : RunResult) : Bool :=
  r.trace.any isExecOnContextThread

/-- The worker was executed directly via `Start()`/`Wait()` on the invoking
thread. -/
def RunResult.ranDirect (r : RunResult) : Bool :=
  r.trace.any isExecDirect

/-- Some worker was executed (by either path). -/
def RunResult.workerExecuted (r : RunResult) : Bool :=
  r.ranOnContextThread || r.ranDirect

/-- The variant of the worker constructed during the invocation, if any. -/
def RunResult.constructedVariant (r : RunResult) : Option WorkerVariant :=
  r.trace.findSome? fun e =>
    match e with
    | Event.constructWorker v => some v
    | _ => none

/-- The terminal state the executed worker reached, if any worker ran. -/
def RunResult.workerFinal (r : RunResult) : Option WorkerState :=
  r.trace.findSome? fun e =>
    match e with
    | Event.execOnContextThread _ s => some s
    | Event.execDirect _ s => some s
    | _ => none

/-- Index of the first event of the trace satisfying `p`, if any. -/
def firstIdx (p : Event → Bool) : List Event → Option Nat
  | [] => none
  | e :: t => if p e then some 0 else (firstIdx p t).map (· + 1)

/-- Temporal precedence on a trace: whenever events of both kinds occur, the
first `p`-event occurs strictly before the first `q`-event. -/
def obsBefore (t : List Event) (p q : Event → Bool) : Prop :=
  ∀ i j, firstIdx p t = some i → firstIdx q t = some j → i < j

/-! ### Concrete demonstration inputs (registries, environments, options)
used to instantiate the theorems at explicit values. -/

/-- A validation predicate accepting exactly the parameter lists of length
`k` (the arity constraint of a model requiring `k` parameters). -/
def arityIs (k : Nat) : List ℚ → Bool := fun l => l.length == k

/-- A two-model demonstration registry. -/
def demoRegistry : Registry :=
  { models := [ { name := "SIMPLE_PINHOLE", model_id := 0,
                  verifyParams := arityIs 3 },
                { name := "PINHOLE", model_id := 1,
                  verifyParams := arityIs 4 } ] }

/-- A demonstration CSV parser: `""` parses to the empty list, `"1,2,3"` to
three values, anything else to one value. -/
def demoParse : String → List ℚ := fun s =>
  if s == "" then []
  else if s == "1,2,3" then [1, 2, 3]
  else [1]

/-- Baseline demonstration environment: GPU-capable build, empty list files,
empty image directory, all workers complete successfully. -/
def demoEnv : Env :=
  { registry := demoRegistry
    csvToVector := demoParse
    readTextFileLines := fun _ => []
    directoryListing := []
    kUseOpenGL := true
    workerFails := fun _ => false }

/-- Environment whose list files contain one image name. -/
def demoEnvNonemptyFile : Env :=
  { demoEnv with readTextFileLines := fun _ => ["image1.jpg"] }

/-- Environment in which every worker fails internally. -/
def demoEnvWorkerFails : Env :=
  { demoEnvNonemptyFile with workerFails := fun _ => true }

/-- Extractor options: valid model, empty parameters, an explicit list file,
GPU requested. -/
def demoExtractorOpts : FeatureExtractorOptions :=
  { image_list_path := "list.txt"
    camera_model := "SIMPLE_PINHOLE"
    camera_params := ""
    reader_image_list := []
    sift_extraction_use_gpu := true }

/-- Extractor options with an unknown camera model and an explicit list
file. -/
def demoExtractorOptsBadModel : FeatureExtractorOptions :=
  { demoExtractorOpts with camera_model := "NO_SUCH_MODEL" }

/-- Extractor options with no explicit list file (directory scan case). -/
def demoExtractorOptsNoList : FeatureExtractorOptions :=
  { demoExtractorOpts with image_list_path := "" }

/-- Importer options: valid model, empty parameters, explicit list file,
GPU requested (the importer ignores the flag). -/
def demoImporterOpts : FeatureImporterOptions :=
  { image_list_path := "list.txt"
    camera_model := "SIMPLE_PINHOLE"
    camera_params := ""
    reader_image_list := []
    sift_extraction_use_gpu := true }

/-- Matcher options requesting the GPU. -/
def demoMatcherOpts : MatcherOptions := { sift_matching_use_gpu := true }

/-- Matches-importer options with an unknown `match_type` and GPU
requested. -/
def demoMatchesImporterOptsBadType : MatchesImporterOptions :=
  { match_type := some "bogus", sift_matching_use_gpu := true }

/-- Matches-importer options with `match_type` not supplied. -/
def demoMatchesImporterOptsNoType : MatchesImporterOptions :=
  { match_type := none, sift_matching_use_gpu := false }

/-! ### Helper lemmas -/

/-- If no registry entry carries the given name, the existence check is
false. -/
lemma existsCameraModelWithName_eq_false (reg : Registry) (name : String)
    (h : ∀ m ∈ reg.models, m.name ≠ name) :
    existsCameraModelWithName reg name = false := by
  simp only [existsCameraModelWithName, List.any_eq_false]
  intro m hm
  simpa using h m hm

/-- `VerifyCameraParams` fails whenever the model name is unknown. -/
lemma verifyCameraParams_eq_false_of_not_exists (reg : Registry)
    (parse : String → List ℚ) (model params : String)
    (h : existsCameraModelWithName reg model = false) :
    verifyCameraParams reg parse model params = false := by
  simp [verifyCameraParams, h]

/-! ### Claim theorems -/

/-- C2: in `RunMatchesImporter`, `match_type = "pairs"` selects the
`ImagePairsFeatureMatcher` variant, `"raw"` selects the
`FeaturePairsFeatureMatcher` variant with geometric verification enabled,
`"inliers"` selects it with verification skipped, and any other value
returns a non-zero exit code without constructing any worker. -/
theorem c2_match_type_dispatch (env : Env) (opts : MatchesImporterOptions) :
    (opts.match_type.getD "pairs" = "pairs" →
      (runMatchesImporter env opts).constructedVariant =
        some WorkerVariant.imagePairsMatcher) ∧
    (opts.match_type.getD "pairs" = "raw" →
      (runMatchesImporter env opts).constructedVariant =
        some (WorkerVariant.featurePairsMatcher true)) ∧
    (opts.match_type.getD "pairs" = "inliers" →
      (runMatchesImporter env opts).constructedVariant =
        some (WorkerVariant.featurePairsMatcher false)) ∧
    (opts.match_type.getD "pairs" ≠ "pairs" →
     opts.match_type.getD "pairs" ≠ "raw" →
     opts.match_type.getD "pairs" ≠ "inliers" →
      (runMatchesImporter env opts).exitCode = EXIT_FAILURE ∧
      (runMatchesImporter env opts).workerConstructed = false) := by
  refine ⟨?_, ?_, ?_, ?_⟩
  · intro h
    cases hg : (opts.sift_matching_use_gpu && env.kUseOpenGL) <;>
      simp [runMatchesImporter, execWorker, RunResult.constructedVariant, h,
        hg, List.findSome?]
  · intro h
    cases hg : (opts.sift_matching_use_gpu && env.kUseOpenGL) <;>
      simp [runMatchesImporter, execWorker, RunResult.constructedVariant, h,
        hg, List.findSome?]
  · intro h
    cases hg : (opts.sift_matching_use_gpu && env.kUseOpenGL) <;>
      simp [runMatchesImporter, execWorker, RunResult.constructedVariant, h,
        hg, List.findSome?]
  · intro h1 h2 h3
    cases hg : (opts.sift_matching_use_gpu && env.kUseOpenGL) <;>
      simp [runMatchesImporter, execWorker, RunResult.workerConstructed, h1,
        h2, h3, hg, isConstructWorker]

/-- C2 witness: the dispatch evaluated at the three valid selectors and one
invalid selector of a concrete invocation. -/
theorem c2_witness :
    (runMatchesImporter demoEnv
        { match_type := some "pairs", sift_matching_use_gpu := true
          : MatchesImporterOptions }).constructedVariant =
      some WorkerVariant.imagePairsMatcher ∧
    (runMatchesImporter demoEnv
        { match_type := some "raw", sift_matching_use_gpu := true
          : MatchesImporterOptions }).constructedVariant =
      some (WorkerVariant.featurePairsMatcher true) ∧
    (runMatchesImporter demoEnv
        { match_type := some "inliers", sift_matching_use_gpu := true
          : MatchesImporterOptions }).constructedVariant =
      some (WorkerVariant.featurePairsMatcher false) ∧
    (runMatchesImporter demoEnv demoMatchesImporterOptsBadType).exitCode =
      EXIT_FAILURE ∧
    (runMatchesImporter demoEnv demoMatchesImporterOptsBadType).workerConstructed =
      false := by
  refine ⟨?_, ?_, ?_, ?_, ?_⟩
  · exact (c2_match_type_dispatch demoEnv _).1 (by decide)
  · exact (c2_match_type_dispatch demoEnv _).2.1 (by decide)
  · exact (c2_match_type_dispatch demoEnv _).2.2.1 (by decide)
  · exact ((c2_match_type_dispatch demoEnv _).2.2.2 (by decide) (by decide)
      (by decide)).1
  · exact ((c2_match_type_dispatch demoEnv _).2.2.2 (by decide) (by decide)
      (by decide)).2

/-- C6: `VerifyCameraParams` accepts an empty parameter string for any
existing model (any parser mapping `""` to the empty list), and rejects any
parameter string whose parsed numeric list is non-empty and fails the model's
registered validation predicate. -/
theorem c6_camera_param_validation (reg : Registry)
    (parse : String → List ℚ) (model : String)
    (hmodel : existsCameraModelWithName reg model = true)
    (hempty : parse "" = []) :
    verifyCameraParams reg parse model "" = true ∧
    ∀ params : String, parse params ≠ [] →
      cameraModelVerifyParams reg (cameraModelNameToId reg model)
        (parse params) = false →
      verifyCameraParams reg parse model params = false := by
  constructor
  · simp [verifyCameraParams, hmodel, hempty]
  · intro params hne hfail
    have hlen : 0 < (parse params).length := List.length_pos.mpr hne
    simp [verifyCameraParams, hmodel, hfail, hlen]

/-- C6 witness: for the three-parameter `SIMPLE_PINHOLE` model of the
demonstration registry, the empty string passes and a one-value string
fails. -/
theorem c6_witness :
    verifyCameraParams demoRegistry demoParse "SIMPLE_PINHOLE" "" = true ∧
    verifyCameraParams demoRegistry demoParse "SIMPLE_PINHOLE" "1" = false := by
  have h := c6_camera_param_validation demoRegistry demoParse "SIMPLE_PINHOLE"
    (by decide) (by decide)
  exact ⟨h.1, h.2 "1" (by decide) (by decide)⟩

/-- C9: `RunFeatureImporter` never creates a GPU context and never uses the
context-thread path; whenever its worker is constructed it is the
`FeatureImporter` and it runs directly via `Start()`/`Wait()`, for every
configuration including ones requesting GPU extraction. -/
theorem c9_importer_always_direct (env : Env)
    (opts : FeatureImporterOptions) :
    (runFeatureImporter env opts).contextCreated = false ∧
    (runFeatureImporter env opts).ranOnContextThread = false ∧
    ((runFeatureImporter env opts).workerConstructed = true →
      (runFeatureImporter env opts).ranDirect = true ∧
      (runFeatureImporter env opts).constructedVariant =
        some WorkerVariant.featureImporter) := by
  cases h1 : (opts.image_list_path == "") <;>
  cases h2 : (env.readTextFileLines opts.image_list_path).isEmpty <;>
  cases hp : verifyCameraParams env.registry env.csvToVector
      opts.camera_model opts.camera_params <;>
  simp [runFeatureImporter, featureImporterAfterResolve, execWorker, h1, h2,
    hp, RunResult.contextCreated, RunResult.ranOnContextThread,
    RunResult.ranDirect, RunResult.workerConstructed,
    RunResult.constructedVariant, isCreateContext, isExecOnContextThread,
    isExecDirect, isConstructWorker, List.findSome?]

/-- C9 witness: a concrete GPU-requesting importer invocation runs directly
with no context. -/
theorem c9_witness :
    (runFeatureImporter demoEnvNonemptyFile demoImporterOpts).contextCreated =
      false ∧
    (runFeatureImporter demoEnvNonemptyFile demoImporterOpts).ranDirect =
      true := by
  have h := c9_importer_always_direct demoEnvNonemptyFile demoImporterOpts
  exact ⟨h.1, (h.2.2 (by decide)).1⟩

/-- C10: when the `match_type` option is not supplied, `RunMatchesImporter`
uses the initialized default `"pairs"` and therefore constructs the
`ImagePairsFeatureMatcher` variant and exits successfully. -/
theorem c10_default_match_type (env : Env) (opts : MatchesImporterOptions)
    (h : opts.match_type = none) :
    (runMatchesImporter env opts).constructedVariant =
      some WorkerVariant.imagePairsMatcher ∧
    (runMatchesImporter env opts).exitCode = EXIT_SUCCESS := by
  cases hg : (opts.sift_matching_use_gpu && env.kUseOpenGL) <;>
    simp [runMatchesImporter, execWorker, RunResult.constructedVariant, h,
      hg, List.findSome?]

/-- C10 witness: a concrete invocation without `match_type`. -/
theorem c10_witness :
    (runMatchesImporter demoEnv demoMatchesImporterOptsNoType).constructedVariant =
      some WorkerVariant.imagePairsMatcher ∧
    (runMatchesImporter demoEnv demoMatchesImporterOptsNoType).exitCode =
      EXIT_SUCCESS :=
  c10_default_match_type demoEnv demoMatchesImporterOptsNoType (by decide)

/-- C4 counterexample: the claim that validation strictly precedes input
resolution is false.  With an unknown camera model and an explicit list file
that resolves empty, `RunFeatureExtractor` reads the list file (input
resolution) and returns success while no validation check ever runs. -/
theorem c4_counterexample :
    (runFeatureExtractor demoEnv demoExtractorOptsBadModel).trace.any
      isReadListFile = true ∧
    (runFeatureExtractor demoEnv demoExtractorOptsBadModel).trace.any
      isValidationCheck = false ∧
    (runFeatureExtractor demoEnv demoExtractorOptsBadModel).exitCode =
      EXIT_SUCCESS := by
  decide

/-- C4 (amended): in `RunFeatureExtractor` and `RunFeatureImporter` the
actual strict order is: input-set resolution (list-file read) strictly
precedes the ConfigValidator checks, and the ConfigValidator checks strictly
precede worker construction. -/
theorem c4_ordering (env : Env) (eo : FeatureExtractorOptions)
    (io : FeatureImporterOptions) :
    obsBefore (runFeatureExtractor env eo).trace isReadListFile
      isValidationCheck ∧
    obsBefore (runFeatureExtractor env eo).trace isValidationCheck
      isConstructWorker ∧
    obsBefore (runFeatureImporter env io).trace isReadListFile
      isValidationCheck ∧
    obsBefore (runFeatureImporter env io).trace isValidationCheck
      isConstructWorker := by
  refine ⟨?_, ?_, ?_, ?_⟩ <;> intro i j hi hj
  · cases h1 : (eo.image_list_path == "") <;>
    cases h2 : (env.readTextFileLines eo.image_list_path).isEmpty <;>
    cases hp : verifyCameraParams env.registry env.csvToVector
        eo.camera_model eo.camera_params <;>
    cases hg : (eo.sift_extraction_use_gpu && env.kUseOpenGL) <;>
    simp [runFeatureExtractor, featureExtractorAfterResolve, execWorker, h1,
      h2, hp, hg, firstIdx, isReadListFile, isValidationCheck,
      isConstructWorker] at hi hj <;>
    omega
  · cases h1 : (eo.image_list_path == "") <;>
    cases h2 : (env.readTextFileLines eo.image_list_path).isEmpty <;>
    cases hp : verifyCameraParams env.registry env.csvToVector
        eo.camera_model eo.camera_params <;>
    cases hg : (eo.sift_extraction_use_gpu && env.kUseOpenGL) <;>
    simp [runFeatureExtractor, featureExtractorAfterResolve, execWorker, h1,
      h2, hp, hg, firstIdx, isReadListFile, isValidationCheck,
      isConstructWorker] at hi hj <;>
    omega
  · cases h1 : (io.image_list_path == "") <;>
    cases h2 : (env.readTextFileLines io.image_list_path).isEmpty <;>
    cases hp : verifyCameraParams env.registry env.csvToVector
        io.camera_model io.camera_params <;>
    simp [runFeatureImporter, featureImporterAfterResolve, execWorker, h1,
      h2, hp, firstIdx, isReadListFile, isValidationCheck,
      isConstructWorker] at hi hj <;>
    omega
  · cases h1 : (io.image_list_path == "") <;>
    cases h2 : (env.readTextFileLines io.image_list_path).isEmpty <;>
    cases hp : verifyCameraParams env.registry env.csvToVector
        io.camera_model io.camera_params <;>
    simp [runFeatureImporter, featureImporterAfterResolve, execWorker, h1,
      h2, hp, firstIdx, isReadListFile, isValidationCheck,
      isConstructWorker] at hi hj <;>
    omega

/-- C4 witness: on a concrete invocation with a non-empty list file, the
list-file read has index 0 and the first validation check index 1, and the
amended ordering theorem yields the strict inequality. -/
theorem c4_witness : (0 : Nat) < 1 :=
  (c4_ordering demoEnvNonemptyFile demoExtractorOpts demoImporterOpts).1 0 1
    (by decide) (by decide)

/-- C5 counterexample: for an unknown camera-model name, the dispatcher does
not always return a non-zero exit: when the explicit list file resolves
empty, `RunFeatureExtractor` returns success without ever consulting the
registry. -/
theorem c5_counterexample :
    existsCameraModelWithName demoRegistry "NO_SUCH_MODEL" = false ∧
    demoExtractorOptsBadModel.camera_model = "NO_SUCH_MODEL" ∧
    (runFeatureExtractor demoEnv demoExtractorOptsBadModel).exitCode =
      EXIT_SUCCESS := by
  decide

/-- C5 (amended): for a camera-model name absent from the registry the
existence check returns false and no worker is ever constructed; and
provided the invocation reaches validation (no explicit list file resolving
empty), the exit status is non-zero. -/
theorem c5_unknown_model (env : Env) (eo : FeatureExtractorOptions)
    (io : FeatureImporterOptions)
    (he : ∀ m ∈ env.registry.models, m.name ≠ eo.camera_model)
    (hi : ∀ m ∈ env.registry.models, m.name ≠ io.camera_model) :
    existsCameraModelWithName env.registry eo.camera_model = false ∧
    (runFeatureExtractor env eo).workerConstructed = false ∧
    (runFeatureImporter env io).workerConstructed = false ∧
    ((eo.image_list_path = "" ∨
        (env.readTextFileLines eo.image_list_path).isEmpty = false) →
      (runFeatureExtractor env eo).exitCode = EXIT_FAILURE) ∧
    ((io.image_list_path = "" ∨
        (env.readTextFileLines io.image_list_path).isEmpty = false) →
      (runFeatureImporter env io).exitCode = EXIT_FAILURE) := by
  have hee : existsCameraModelWithName env.registry eo.camera_model = false :=
    existsCameraModelWithName_eq_false _ _ he
  have hei : existsCameraModelWithName env.registry io.camera_model = false :=
    existsCameraModelWithName_eq_false _ _ hi
  have hpe : verifyCameraParams env.registry env.csvToVector eo.camera_model
      eo.camera_params = false :=
    verifyCameraParams_eq_false_of_not_exists _ _ _ _ hee
  have hpi : verifyCameraParams env.registry env.csvToVector io.camera_model
      io.camera_params = false :=
    verifyCameraParams_eq_false_of_not_exists _ _ _ _ hei
  refine ⟨hee, ?_, ?_, ?_, ?_⟩
  · cases h1 : (eo.image_list_path == "") <;>
    cases h2 : (env.readTextFileLines eo.image_list_path).isEmpty <;>
    simp [runFeatureExtractor, featureExtractorAfterResolve, execWorker, h1,
      h2, hpe, RunResult.workerConstructed, isConstructWorker]
  · cases h1 : (io.image_list_path == "") <;>
    cases h2 : (env.readTextFileLines io.image_list_path).isEmpty <;>
    simp [runFeatureImporter, featureImporterAfterResolve, execWorker, h1,
      h2, hpi, RunResult.workerConstructed, isConstructWorker]
  · rintro (h1 | h2)
    · simp [runFeatureExtractor, featureExtractorAfterResolve, h1, hpe]
    · cases h1 : (eo.image_list_path == "")
      · simp [runFeatureExtractor, featureExtractorAfterResolve, h1, h2, hpe]
      · have : eo.image_list_path = "" := by
          simpa using h1
        simp [runFeatureExtractor, featureExtractorAfterResolve, this, hpe]
  · rintro (h1 | h2)
    · simp [runFeatureImporter, featureImporterAfterResolve, h1, hpi]
    · cases h1 : (io.image_list_path == "")
      · simp [runFeatureImporter, featureImporterAfterResolve, h1, h2, hpi]
      · have : io.image_list_path = "" := by
          simpa using h1
        simp [runFeatureImporter, featureImporterAfterResolve, this, hpi]

/-- C5 witness: a concrete unknown-model invocation that reaches validation
fails with a non-zero exit and no worker. -/
theorem c5_witness :
    (runFeatureExtractor demoEnvNonemptyFile
        demoExtractorOptsBadModel).exitCode = EXIT_FAILURE ∧
    (runFeatureExtractor demoEnvNonemptyFile
        demoExtractorOptsBadModel).workerConstructed = false := by
  have h := c5_unknown_model demoEnvNonemptyFile demoExtractorOptsBadModel
    { demoImporterOpts with camera_model := "NO_SUCH_MODEL" }
    (by decide) (by decide)
  exact ⟨h.2.2.2.1 (Or.inr (by decide)), h.2.1⟩

/-- C7 counterexample: an empty resolved input set coming from an empty
directory scan does not stop the dispatcher: with no explicit list file and
an empty image directory, `RunFeatureExtractor` still constructs the worker
(and, with GPU requested on a GPU build, the context). -/
theorem c7_counterexample :
    demoEnv.directoryListing = [] ∧
    demoExtractorOptsNoList.image_list_path = "" ∧
    demoExtractorOptsNoList.reader_image_list = [] ∧
    (runFeatureExtractor demoEnv demoExtractorOptsNoList).workerConstructed =
      true ∧
    (runFeatureExtractor demoEnv demoExtractorOptsNoList).contextCreated =
      true := by
  decide

/-- C7 (amended): when an explicit list file is given and resolves to an
empty list, `RunFeatureExtractor` and `RunFeatureImporter` return success
and construct neither a worker nor a GPU context; an empty directory scan is
not detected at the dispatcher level. -/
theorem c7_empty_list_file (env : Env) (eo : FeatureExtractorOptions)
    (io : FeatureImporterOptions)
    (he : eo.image_list_path ≠ "")
    (hre : (env.readTextFileLines eo.image_list_path).isEmpty = true)
    (hio : io.image_list_path ≠ "")
    (hri : (env.readTextFileLines io.image_list_path).isEmpty = true) :
    (runFeatureExtractor env eo).exitCode = EXIT_SUCCESS ∧
    (runFeatureExtractor env eo).workerConstructed = false ∧
    (runFeatureExtractor env eo).contextCreated = false ∧
    (runFeatureImporter env io).exitCode = EXIT_SUCCESS ∧
    (runFeatureImporter env io).workerConstructed = false ∧
    (runFeatureImporter env io).contextCreated = false := by
  have h1 : (eo.image_list_path == "") = false := by
    simpa using he
  have h2 : (io.image_list_path == "") = false := by
    simpa using hio
  simp [runFeatureExtractor, runFeatureImporter, h1, h2, hre, hri,
    RunResult.workerConstructed, RunResult.contextCreated, isConstructWorker,
    isCreateContext]

/-- C7 witness: a concrete invocation with an empty explicit list file. -/
theorem c7_witness :
    (runFeatureExtractor demoEnv demoExtractorOpts).exitCode = EXIT_SUCCESS ∧
    (runFeatureExtractor demoEnv demoExtractorOpts).workerConstructed =
      false := by
  have h := c7_empty_list_file demoEnv demoExtractorOpts demoImporterOpts
    (by decide) (by decide) (by decide) (by decide)
  exact ⟨h.1, h.2.1⟩

/-- C1 counterexample: an unrecovered worker failure does not produce a
non-zero exit status.  In a concrete exhaustive-matcher invocation whose
worker reaches the `failed` terminal state, the entry point still returns
`EXIT_SUCCESS`. -/
theorem c1_counterexample :
    (runExhaustiveMatcher demoEnvWorkerFails demoMatcherOpts).workerFinal =
      some WorkerState.failed ∧
    (runExhaustiveMatcher demoEnvWorkerFails demoMatcherOpts).exitCode =
      EXIT_SUCCESS := by
  decide

/-- C1 (amended): the exit status is `EXIT_SUCCESS` on success including the
no-op path and `EXIT_FAILURE` exactly for configuration errors; a worker
failure does not affect it — every entry point returns `EXIT_SUCCESS`
whenever a worker was constructed, regardless of the worker's terminal
state. -/
theorem c1_exit_status (env : Env) (eo : FeatureExtractorOptions)
    (io : FeatureImporterOptions) (mo : MatchesImporterOptions)
    (go : MatcherOptions) (v : WorkerVariant) :
    ((runFeatureExtractor env eo).workerConstructed = true →
      (runFeatureExtractor env eo).exitCode = EXIT_SUCCESS) ∧
    ((runFeatureExtractor env eo).exitCode = EXIT_FAILURE →
      verifyCameraParams env.registry env.csvToVector eo.camera_model
        eo.camera_params = false) ∧
    ((runFeatureImporter env io).workerConstructed = true →
      (runFeatureImporter env io).exitCode = EXIT_SUCCESS) ∧
    ((runFeatureImporter env io).exitCode = EXIT_FAILURE →
      verifyCameraParams env.registry env.csvToVector io.camera_model
        io.camera_params = false) ∧
    ((runMatchesImporter env mo).workerConstructed = true →
      (runMatchesImporter env mo).exitCode = EXIT_SUCCESS) ∧
    ((runMatchesImporter env mo).exitCode = EXIT_FAILURE →
      mo.match_type.getD "pairs" ≠ "pairs" ∧
      mo.match_type.getD "pairs" ≠ "raw" ∧
      mo.match_type.getD "pairs" ≠ "inliers") ∧
    (runGenericMatcher env go v).exitCode = EXIT_SUCCESS := by
  refine ⟨?_, ?_, ?_, ?_, ?_, ?_, ?_⟩
  · intro h
    cases h1 : (eo.image_list_path == "") <;>
    cases h2 : (env.readTextFileLines eo.image_list_path).isEmpty <;>
    cases hp : verifyCameraParams env.registry env.csvToVector
        eo.camera_model eo.camera_params <;>
    cases hg : (eo.sift_extraction_use_gpu && env.kUseOpenGL) <;>
    simp [runFeatureExtractor, featureExtractorAfterResolve, execWorker, h1,
      h2, hp, hg, RunResult.workerConstructed, isConstructWorker] at h ⊢
  · intro h
    cases h1 : (eo.image_list_path == "") <;>
    cases h2 : (env.readTextFileLines eo.image_list_path).isEmpty <;>
    cases hp : verifyCameraParams env.registry env.csvToVector
        eo.camera_model eo.camera_params <;>
    cases hg : (eo.sift_extraction_use_gpu && env.kUseOpenGL) <;>
    simp [runFeatureExtractor, featureExtractorAfterResolve, execWorker, h1,
      h2, hp, hg, EXIT_SUCCESS, EXIT_FAILURE] at h ⊢
  · intro h
    cases h1 : (io.image_list_path == "") <;>
    cases h2 : (env.readTextFileLines io.image_list_path).isEmpty <;>
    cases hp : verifyCameraParams env.registry env.csvToVector
        io.camera_model io.camera_params <;>
    simp [runFeatureImporter, featureImporterAfterResolve, execWorker, h1,
      h2, hp, RunResult.workerConstructed, isConstructWorker] at h ⊢
  · intro h
    cases h1 : (io.image_list_path == "") <;>
    cases h2 : (env.readTextFileLines io.image_list_path).isEmpty <;>
    cases hp : verifyCameraParams env.registry env.csvToVector
        io.camera_model io.camera_params <;>
    simp [runFeatureImporter, featureImporterAfterResolve, execWorker, h1,
      h2, hp, EXIT_SUCCESS, EXIT_FAILURE] at h ⊢
  · intro h
    by_cases hp : mo.match_type.getD "pairs" = "pairs"
    · cases hg : (mo.sift_matching_use_gpu && env.kUseOpenGL) <;>
        simp [runMatchesImporter, execWorker, hp, hg]
    by_cases hr : mo.match_type.getD "pairs" = "raw"
    · cases hg : (mo.sift_matching_use_gpu && env.kUseOpenGL) <;>
        simp [runMatchesImporter, execWorker, hp, hr, hg]
    by_cases hin : mo.match_type.getD "pairs" = "inliers"
    · cases hg : (mo.sift_matching_use_gpu && env.kUseOpenGL) <;>
        simp [runMatchesImporter, execWorker, hp, hr, hin, hg]
    · exfalso
      cases hg : (mo.sift_matching_use_gpu && env.kUseOpenGL) <;>
        simp [runMatchesImporter, hp, hr, hin, hg,
          RunResult.workerConstructed, isConstructWorker] at h
  · intro h
    by_cases hp : mo.match_type.getD "pairs" = "pairs"
    · exfalso
      cases hg : (mo.sift_matching_use_gpu && env.kUseOpenGL) <;>
        simp [runMatchesImporter, execWorker, hp, hg, EXIT_SUCCESS,
          EXIT_FAILURE] at h
    by_cases hr : mo.match_type.getD "pairs" = "raw"
    · exfalso
      cases hg : (mo.sift_matching_use_gpu && env.kUseOpenGL) <;>
        simp [runMatchesImporter, execWorker, hp, hr, hg, EXIT_SUCCESS,
          EXIT_FAILURE] at h
    by_cases hin : mo.match_type.getD "pairs" = "inliers"
    · exfalso
      cases hg : (mo.sift_matching_use_gpu && env.kUseOpenGL) <;>
        simp [runMatchesImporter, execWorker, hp, hr, hin, hg, EXIT_SUCCESS,
          EXIT_FAILURE] at h
    · exact ⟨hp, hr, hin⟩
  · cases hg : (go.sift_matching_use_gpu && env.kUseOpenGL) <;>
      simp [runGenericMatcher, execWorker, hg]

/-- C1 witness: a concrete invocation whose worker fails still exits with
`EXIT_SUCCESS`. -/
theorem c1_witness :
    (runFeatureExtractor demoEnvWorkerFails demoExtractorOpts).exitCode =
      EXIT_SUCCESS :=
  (c1_exit_status demoEnvWorkerFails demoExtractorOpts demoImporterOpts
    demoMatchesImporterOptsNoType demoMatcherOpts
    WorkerVariant.exhaustiveMatcher).1 (by decide)

/-- C3 counterexample: a configuration error does not always avoid context
creation.  In `RunMatchesImporter` with an unknown `match_type`, GPU
requested and a GPU-capable build, the `QApplication` context is
instantiated before the `match_type` check and the invocation then fails. -/
theorem c3_counterexample :
    (runMatchesImporter demoEnv demoMatchesImporterOptsBadType).exitCode =
      EXIT_FAILURE ∧
    (runMatchesImporter demoEnv
        demoMatchesImporterOptsBadType).workerConstructed = false ∧
    (runMatchesImporter demoEnv
        demoMatchesImporterOptsBadType).contextCreated = true := by
  decide

/-- C3 (amended): every configuration error yields a non-zero exit with no
worker constructed; no context is created on the camera-validation failure
paths of `RunFeatureExtractor` and `RunFeatureImporter`; but in
`RunMatchesImporter` the context is created before the `match_type` check,
so on its failure path a context exists exactly when GPU execution is
requested and supported. -/
theorem c3_config_error_side_effects (env : Env)
    (eo : FeatureExtractorOptions) (io : FeatureImporterOptions)
    (mo : MatchesImporterOptions) :
    ((runFeatureExtractor env eo).exitCode = EXIT_FAILURE →
      (runFeatureExtractor env eo).workerConstructed = false ∧
      (runFeatureExtractor env eo).contextCreated = false) ∧
    ((runFeatureImporter env io).exitCode = EXIT_FAILURE →
      (runFeatureImporter env io).workerConstructed = false ∧
      (runFeatureImporter env io).contextCreated = false) ∧
    ((runMatchesImporter env mo).exitCode = EXIT_FAILURE →
      (runMatchesImporter env mo).workerConstructed = false ∧
      (runMatchesImporter env mo).contextCreated =
        (mo.sift_matching_use_gpu && env.kUseOpenGL)) := by
  refine ⟨?_, ?_, ?_⟩
  · intro h
    cases h1 : (eo.image_list_path == "") <;>
    cases h2 : (env.readTextFileLines eo.image_list_path).isEmpty <;>
    cases hp : verifyCameraParams env.registry env.csvToVector
        eo.camera_model eo.camera_params <;>
    cases hg : (eo.sift_extraction_use_gpu && env.kUseOpenGL) <;>
    simp [runFeatureExtractor, featureExtractorAfterResolve, execWorker, h1,
      h2, hp, hg, RunResult.workerConstructed, RunResult.contextCreated,
      isConstructWorker, isCreateContext, EXIT_SUCCESS, EXIT_FAILURE] at h ⊢
  · intro h
    cases h1 : (io.image_list_path == "") <;>
    cases h2 : (env.readTextFileLines io.image_list_path).isEmpty <;>
    cases hp : verifyCameraParams env.registry env.csvToVector
        io.camera_model io.camera_params <;>
    simp [runFeatureImporter, featureImporterAfterResolve, execWorker, h1,
      h2, hp, RunResult.workerConstructed, RunResult.contextCreated,
      isConstructWorker, isCreateContext, EXIT_SUCCESS, EXIT_FAILURE] at h ⊢
  · intro h
    by_cases hp : mo.match_type.getD "pairs" = "pairs"
    · exfalso
      cases hg : (mo.sift_matching_use_gpu && env.kUseOpenGL) <;>
        simp [runMatchesImporter, execWorker, hp, hg, EXIT_SUCCESS,
          EXIT_FAILURE] at h
    by_cases hr : mo.match_type.getD "pairs" = "raw"
    · exfalso
      cases hg : (mo.sift_matching_use_gpu && env.kUseOpenGL) <;>
        simp [runMatchesImporter, execWorker, hp, hr, hg, EXIT_SUCCESS,
          EXIT_FAILURE] at h
    by_cases hin : mo.match_type.getD "pairs" = "inliers"
    · exfalso
      cases hg : (mo.sift_matching_use_gpu && env.kUseOpenGL) <;>
        simp [runMatchesImporter, execWorker, hp, hr, hin, hg, EXIT_SUCCESS,
          EXIT_FAILURE] at h
    · cases hg : (mo.sift_matching_use_gpu && env.kUseOpenGL) <;>
        simp [runMatchesImporter, hp, hr, hin, hg,
          RunResult.workerConstructed, RunResult.contextCreated,
          isConstructWorker, isCreateContext]

/-- C3 witness: a concrete invalid-parameter extractor invocation fails with
no worker and no context. -/
theorem c3_witness :
    (runFeatureExtractor demoEnvNonemptyFile
        { demoExtractorOpts with camera_params := "bad" }).workerConstructed =
      false ∧
    (runFeatureExtractor demoEnvNonemptyFile
        { demoExtractorOpts with camera_params := "bad" }).contextCreated =
      false :=
  (c3_config_error_side_effects demoEnvNonemptyFile
    { demoExtractorOpts with camera_params := "bad" } demoImporterOpts
    demoMatchesImporterOptsNoType).1 (by decide)

/-- C8: in every GPU-capable entry point (`RunFeatureExtractor`,
`RunMatchesImporter`, and the five plain matchers), an executed worker runs
on the dedicated OpenGL-context thread exactly when GPU execution is
requested and the build supports it (`use_gpu && kUseOpenGL`), runs directly
via `Start()`/`Wait()` otherwise, and no context object is instantiated
whenever that condition fails. -/
theorem c8_gpu_execution_path (env : Env) (eo : FeatureExtractorOptions)
    (mo : MatchesImporterOptions) (go : MatcherOptions) (v : WorkerVariant) :
    ((runFeatureExtractor env eo).workerExecuted = true →
      (runFeatureExtractor env eo).ranOnContextThread =
        (eo.sift_extraction_use_gpu && env.kUseOpenGL) ∧
      (runFeatureExtractor env eo).ranDirect =
        !(eo.sift_extraction_use_gpu && env.kUseOpenGL)) ∧
    ((eo.sift_extraction_use_gpu && env.kUseOpenGL) = false →
      (runFeatureExtractor env eo).contextCreated = false) ∧
    ((runMatchesImporter env mo).workerExecuted = true →
      (runMatchesImporter env mo).ranOnContextThread =
        (mo.sift_matching_use_gpu && env.kUseOpenGL) ∧
      (runMatchesImporter env mo).ranDirect =
        !(mo.sift_matching_use_gpu && env.kUseOpenGL)) ∧
    ((mo.sift_matching_use_gpu && env.kUseOpenGL) = false →
      (runMatchesImporter env mo).contextCreated = false) ∧
    ((runGenericMatcher env go v).workerExecuted = true →
      (runGenericMatcher env go v).ranOnContextThread =
        (go.sift_matching_use_gpu && env.kUseOpenGL) ∧
      (runGenericMatcher env go v).ranDirect =
        !(go.sift_matching_use_gpu && env.kUseOpenGL)) ∧
    ((go.sift_matching_use_gpu && env.kUseOpenGL) = false →
      (runGenericMatcher env go v).contextCreated = false) := by
  refine ⟨?_, ?_, ?_, ?_, ?_, ?_⟩
  · intro h
    cases h1 : (eo.image_list_path == "") <;>
    cases h2 : (env.readTextFileLines eo.image_list_path).isEmpty <;>
    cases hp : verifyCameraParams env.registry env.csvToVector
        eo.camera_model eo.camera_params <;>
    cases hg : (eo.sift_extraction_use_gpu && env.kUseOpenGL) <;>
    simp [runFeatureExtractor, featureExtractorAfterResolve, execWorker, h1,
      h2, hp, hg, RunResult.workerExecuted, RunResult.ranOnContextThread,
      RunResult.ranDirect, isExecOnContextThread, isExecDirect] at h ⊢
  · intro hg
    cases h1 : (eo.image_list_path == "") <;>
    cases h2 : (env.readTextFileLines eo.image_list_path).isEmpty <;>
    cases hp : verifyCameraParams env.registry env.csvToVector
        eo.camera_model eo.camera_params <;>
    simp [runFeatureExtractor, featureExtractorAfterResolve, execWorker, h1,
      h2, hp, hg, RunResult.contextCreated, isCreateContext]
  · intro h
    by_cases hp : mo.match_type.getD "pairs" = "pairs"
    · cases hg : (mo.sift_matching_use_gpu && env.kUseOpenGL) <;>
        simp [runMatchesImporter, execWorker, hp, hg,
          RunResult.workerExecuted, RunResult.ranOnContextThread,
          RunResult.ranDirect, isExecOnContextThread, isExecDirect]
    by_cases hr : mo.match_type.getD "pairs" = "raw"
    · cases hg : (mo.sift_matching_use_gpu && env.kUseOpenGL) <;>
        simp [runMatchesImporter, execWorker, hp, hr, hg,
          RunResult.workerExecuted, RunResult.ranOnContextThread,
          RunResult.ranDirect, isExecOnContextThread, isExecDirect]
    by_cases hin : mo.match_type.getD "pairs" = "inliers"
    · cases hg : (mo.sift_matching_use_gpu && env.kUseOpenGL) <;>
        simp [runMatchesImporter, execWorker, hp, hr, hin, hg,
          RunResult.workerExecuted, RunResult.ranOnContextThread,
          RunResult.ranDirect, isExecOnContextThread, isExecDirect]
    · exfalso
      cases hg : (mo.sift_matching_use_gpu && env.kUseOpenGL) <;>
        simp [runMatchesImporter, hp, hr, hin, hg,
          RunResult.workerExecuted, RunResult.ranOnContextThread,
          RunResult.ranDirect, isExecOnContextThread, isExecDirect] at h
  · intro hg
    by_cases hp : mo.match_type.getD "pairs" = "pairs"
    · simp [runMatchesImporter, execWorker, hp, hg,
        RunResult.contextCreated, isCreateContext]
    by_cases hr : mo.match_type.getD "pairs" = "raw"
    · simp [runMatchesImporter, execWorker, hp, hr, hg,
        RunResult.contextCreated, isCreateContext]
    by_cases hin : mo.match_type.getD "pairs" = "inliers"
    · simp [runMatchesImporter, execWorker, hp, hr, hin, hg,
        RunResult.contextCreated, isCreateContext]
    · simp [runMatchesImporter, execWorker, hp, hr, hin, hg,
        RunResult.contextCreated, isCreateContext]
  · intro h
    cases hg : (go.sift_matching_use_gpu && env.kUseOpenGL) <;>
      simp [runGenericMatcher, execWorker, hg, RunResult.workerExecuted,
        RunResult.ranOnContextThread, RunResult.ranDirect,
        isExecOnContextThread, isExecDirect]
  · intro hg
    simp [runGenericMatcher, execWorker, hg, RunResult.contextCreated,
      isCreateContext]

/-- C8 witness: concrete invocations on a GPU-capable build — a
GPU-requesting exhaustive matcher runs on the context thread, a
non-GPU-requesting one runs directly with no context. -/
theorem c8_witness :
    (runGenericMatcher demoEnvNonemptyFile demoMatcherOpts
        WorkerVariant.exhaustiveMatcher).ranOnContextThread = true ∧
    (runGenericMatcher demoEnvNonemptyFile
        { sift_matching_use_gpu := false }
        WorkerVariant.exhaustiveMatcher).ranDirect = true ∧
    (runGenericMatcher demoEnvNonemptyFile
        { sift_matching_use_gpu := false }
        WorkerVariant.exhaustiveMatcher).contextCreated = false := by
  have h1 := (c8_gpu_execution_path demoEnvNonemptyFile demoExtractorOpts
    demoMatchesImporterOptsNoType demoMatcherOpts
    WorkerVariant.exhaustiveMatcher).2.2.2.2.1 (by decide)
  have h2 := (c8_gpu_execution_path demoEnvNonemptyFile demoExtractorOpts
    demoMatchesImporterOptsNoType { sift_matching_use_gpu := false }
    WorkerVariant.exhaustiveMatcher).2.2.2.2.1 (by decide)
  have h3 := (c8_gpu_execution_path demoEnvNonemptyFile demoExtractorOpts
    demoMatchesImporterOptsNoType { sift_matching_use_gpu := false }
    WorkerVariant.exhaustiveMatcher).2.2.2.2.2 (by decide)
  refine ⟨?_, ?_, h3⟩
  · rw [h1.1]; decide
  · rw [h2.2]; decide

end Colmap
